import Mathlib

/-!
Verification of `extract_firmware_complete.py` (DJI Osmo Pocket firmware
extractor).  The Python source is shallowly embedded below: its pure string
processing (binwalk-output scanning, unsquashfs version parsing), the
version-to-flag compatibility table, the payload slicer, the `runCmd`
process wrapper, the pipeline control flow of `FirmwareExtractor.run` /
`main`, and a ledger of the filesystem effects a complete run performs.
External processes are modelled by their observable outcome (exit code,
captured stdout/stderr, timeout, raised exception).
-/

namespace FirmwareExtract

/-! ### Python string primitives

Helpers mirroring the Python `str` operations the source uses, over ASCII
text (the source only ever feeds them ASCII tool output).
-/

/-- The whitespace characters of Python `str.split()` / `str.strip()`. -/
def pySpace (c : Char) : Bool :=
  c = ' ' || c = '\t' || c = '\n' || c = '\r' || c = '\x0b' || c = '\x0c'

/-- Python `str.isdigit()` (ASCII): non-empty and all characters digits. -/
def pyIsDigit (s : String) : Bool :=
  !s.data.isEmpty && s.data.all Char.isDigit

/-- Numeric value of a digit string, most-significant first. -/
def natOfDigits (l : List Char) : Nat :=
  l.foldl (fun n c => 10 * n + (c.toNat - 48)) 0

/-- Python `int(s)` restricted to the digit-only strings the source feeds
it (tokens that already passed an `isdigit` test, or `'.'`-split pieces of
such a token): `none` models the `ValueError` on an empty piece. -/
def pyInt? (s : String) : Option Nat :=
  if pyIsDigit s then some (natOfDigits s.data) else none

/-- Python `s.split(c)` for a one-character separator: keeps empty pieces,
`"".split(c) = [""]`. -/
def splitCharAux (c : Char) : List Char → List Char → List String
  | [], acc => [⟨acc.reverse⟩]
  | x :: xs, acc =>
    if x = c then ⟨acc.reverse⟩ :: splitCharAux c xs []
    else splitCharAux c xs (x :: acc)

def splitChar (c : Char) (s : String) : List String :=
  splitCharAux c s.data []

/-- Python `s.split()` (no argument): split on whitespace runs, dropping
empty pieces. -/
def pysplitAux : List Char → List Char → List String
  | [], acc => if acc.isEmpty then [] else [⟨acc.reverse⟩]
  | x :: xs, acc =>
    if pySpace x then
      if acc.isEmpty then pysplitAux xs []
      else ⟨acc.reverse⟩ :: pysplitAux xs []
    else pysplitAux xs (x :: acc)

def pysplit (s : String) : List String := pysplitAux s.data []

/-- Python `needle in hay` substring test, on character lists. -/
def subListOf (needle : List Char) : List Char → Bool
  | [] => needle.isEmpty
  | l@(_ :: t) => needle.isPrefixOf l || subListOf needle t

/-- Python `needle in hay` on strings. -/
def pyContains (hay needle : String) : Bool :=
  subListOf needle.data hay.data

/-- ASCII lowering, as Python `str.lower()` acts on the ASCII tool output
the source scans. -/
def asciiLower (c : Char) : Char :=
  if 65 ≤ c.toNat && c.toNat ≤ 90 then Char.ofNat (c.toNat + 32) else c

def pyLower (s : String) : String := ⟨s.data.map asciiLower⟩

/-- Python `s.replace('.', '')`: remove every dot. -/
def stripDots (s : String) : String := ⟨s.data.filter (fun c => c ≠ '.')⟩

/-- Python `s.strip()`: drop leading and trailing whitespace. -/
def pyStrip (s : String) : String :=
  ⟨((s.data.dropWhile pySpace).reverse.dropWhile pySpace).reverse⟩

/-! ### External-process outcomes and `runCmd`

`subprocess.run(cmd, shell=True, capture_output=True, text=True,
timeout=300)` either completes with an exit code and captured
stdout/stderr, raises `TimeoutExpired` after the 300 s budget, or raises
some other exception (e.g. `OSError`); `runCmd` catches all three.
-/

inductive CmdOutcome where
  | completed (exitCode : Nat) (stdout : String) (stderr : String)
  | timedOut
  | raised
deriving DecidableEq

/-- The invoked process finished with a non-zero exit status. -/
def exitedNonzero : CmdOutcome → Bool
  | .completed ec _ _ => ec ≠ 0
  | _ => false

/-- The fixed per-invocation timeout elapsed. -/
def isTimeout : CmdOutcome → Bool
  | .timedOut => true
  | _ => false

/-- `FirmwareExtractor.runCmd` (source lines 79–99): returns whether the
invocation is reported as a success, together with the messages appended
to the audit log `self.log` (sans timestamp/level decoration).  Non-zero
exit logs the failure and, when non-empty, the captured stderr; success
logs the stripped stdout when non-empty; timeout and any other exception
are logged failures. -/
def runCmd (cmd : String) : CmdOutcome → Bool × List String
  | .completed ec out err =>
    if ec ≠ 0 then
      (false, ("Failed to execute: " ++ cmd) ::
        (if err ≠ "" then ["Error: " ++ err] else []))
    else
      (true, if out ≠ "" then [pyStrip out] else [])
  | .timedOut => (false, ["Timeout executing: " ++ cmd])
  | .raised => (false, ["Exception"])

/-! ### `find_lz4_offset` (source lines 134–157)

Scans `binwalk -B` stdout line by line; a line is considered only when it
contains the literal substring `"LZ4"` or `"lz4"`; on such a line the
first whitespace token, when it `isdigit()`, is returned as the offset.
Otherwise — including when the binwalk invocation raises (timeout
included) — the hard-coded fallback offset `0x17A = 378` is returned.
-/

/-- `'LZ4' in line or 'lz4' in line`. -/
def lz4LineMatches (line : String) : Bool :=
  pyContains line "LZ4" || pyContains line "lz4"

/-- The offset a single binwalk output line contributes: `some n` when the
line matches and its first token is a digit string parsing to `n`. -/
def lz4LineOffset (line : String) : Option Nat :=
  if lz4LineMatches line then
    match pysplit line with
    | [] => none
    | tok :: _ => pyInt? tok
  else none

/-- The `for line in result.stdout.split('\n')` loop: first line yielding
an offset wins. -/
def scanLz4Lines : List String → Option Nat
  | [] => none
  | l :: rest =>
    match lz4LineOffset l with
    | some n => some n
    | none => scanLz4Lines rest

/-- `find_lz4_offset`: `invOk = false` models the `except` path (binwalk
invocation raised, e.g. `TimeoutExpired`); `stdout` is binwalk's captured
standard output. -/
def find_lz4_offset (invOk : Bool) (stdout : String) : Nat :=
  if invOk then (scanLz4Lines (splitChar '\n' stdout)).getD 378
  else 378

/-! ### `extract_lz4_payload` (source lines 159–178)

Opens the firmware read-only, seeks to `offset`, reads to end-of-file and
writes those bytes to `lz4_payload.bin`.  `f.seek(o); f.read()` returns
the bytes from position `o` on (empty when `o` is at or past end-of-file),
i.e. `List.drop`.  `src = none` models an unreadable source (the `except`
path returning `None`); otherwise the artifact is returned. -/
def extract_lz4_payload (src : Option (List Nat)) (offset : Nat) :
    Option (List Nat) :=
  match src with
  | some data => some (data.drop offset)
  | none => none

/-! ### `get_unsquashfs_version` (source lines 230–258)

`unsquashfs -version` output (stdout+stderr) is scanned line by line; a
line is considered when `'version' in line.lower()`; its whitespace tokens
are tried in order: a token `t` with `t.replace('.', '').isdigit()` is
split on `'.'`, capped at two pieces, and `major, minor = map(int, ...)`
either yields the pair or raises (fewer than two pieces, or an empty
piece), in which case the token is skipped (`except: pass`).  No line
yielding a pair — or the probe invocation raising — gives the conservative
default `(4, 4)`. -/

/-- The version pair one token contributes, `none` when the token is
skipped. -/
def tokenVersion (tok : String) : Option (Nat × Nat) :=
  if pyIsDigit (stripDots tok) then
    match (splitChar '.' tok).take 2 with
    | [a, b] =>
      match pyInt? a, pyInt? b with
      | some ma, some mi => some (ma, mi)
      | _, _ => none
    | _ => none
  else none

/-- The `for i, part in enumerate(parts)` loop over one line's tokens. -/
def scanVersionTokens : List String → Option (Nat × Nat)
  | [] => none
  | t :: rest =>
    match tokenVersion t with
    | some v => some v
    | none => scanVersionTokens rest

/-- The `for line in output.split('\n')` loop. -/
def scanVersionLines : List String → Option (Nat × Nat)
  | [] => none
  | l :: rest =>
    if pyContains (pyLower l) "version" then
      match scanVersionTokens (pysplit l) with
      | some v => some v
      | none => scanVersionLines rest
    else scanVersionLines rest

/-- `get_unsquashfs_version`: `invOk = false` models the outer `except`
path (the probe itself raised); `output` is `result.stdout +
result.stderr`. -/
def get_unsquashfs_version (invOk : Bool) (output : String) : Nat × Nat :=
  if invOk then (scanVersionLines (splitChar '\n' output)).getD (4, 4)
  else (4, 4)

/-! ### `extract_squashfs` (source lines 260–301)

Selects the unsquashfs command by the detected version (Python tuple
comparison is lexicographic), runs it through `runCmd`, and reports
success only when `runCmd` succeeded *and* the `squashfs-extracted`
output directory exists afterwards. -/

/-- Python `(a, b) >= (c, d)`: lexicographic tuple comparison. -/
def verGe (v w : Nat × Nat) : Bool :=
  w.1 < v.1 || (v.1 = w.1 && w.2 ≤ v.2)

inductive UnsqFlag where
  /-- `unsquashfs -no-exit-code -d squashfs-extracted <file>` -/
  | noExitCode
  /-- `unsquashfs -ignore-errors -d squashfs-extracted <file>` -/
  | ignoreErrors
  /-- `unsquashfs -d squashfs-extracted <file> 2>/dev/null || true` -/
  | legacyNoFlag
deriving DecidableEq

/-- The `if version >= (4, 5) / elif version >= (4, 4) / else` cascade
choosing the command variant. -/
def selectFlag (v : Nat × Nat) : UnsqFlag :=
  if verGe v (4, 5) then .noExitCode
  else if verGe v (4, 4) then .ignoreErrors
  else .legacyNoFlag

/-- Error-tolerance rank of a command variant: the catch-all below every
floor, then the `-ignore-errors` tier, then the `-no-exit-code` tier. -/
def flagRank : UnsqFlag → Nat
  | .legacyNoFlag => 0
  | .ignoreErrors => 1
  | .noExitCode => 2

/-- What the shell hands back to `runCmd` for each command variant: the
legacy command ends in `|| true`, so the shell's exit status is 0 whatever
unsquashfs returned; the two flag variants pass the tool's status
through.  Timeouts and exceptions are unaffected by `|| true`. -/
def squashfsShellOutcome (f : UnsqFlag) : CmdOutcome → CmdOutcome
  | .completed ec out err =>
    .completed (if f = .legacyNoFlag then 0 else ec) out err
  | o => o

/-- Whether `extract_squashfs` reports success (returns the output
directory rather than `None`): a `*.squashfs` file must be found, the
shell command must succeed per `runCmd`, and `squashfs-extracted` must
exist afterwards.  `toolOutcome` is the unsquashfs process's own outcome
before the shell applies `|| true`. -/
def extract_squashfs (hasSquashfsFile : Bool) (v : Nat × Nat)
    (toolOutcome : CmdOutcome) (outDirExists : Bool) : Bool :=
  hasSquashfsFile &&
    (runCmd "unsquashfs" (squashfsShellOutcome (selectFlag v) toolOutcome)).1 &&
    outDirExists

/-! ### `FirmwareExtractor.run` and `main` (source lines 425–486)

The pipeline is strictly sequential and attempt-once; each stage's
environment-dependent outcome is a field of `RunEnv`.  `main` exits 1 when
no argument is given; constructing `FirmwareExtractor` exits 1 when the
input path does not exist (before `run`, hence before
`setup_workspace`); otherwise the exit status is 0 when `run` returned
`True` and 1 otherwise. -/

structure RunEnv where
  /-- `check_dependencies` found binwalk, lz4 and unsquashfs. -/
  depsOk : Bool
  /-- `extract_lz4_payload` read/wrote without raising. -/
  lz4ReadOk : Bool
  /-- Outcome of the `lz4 -d -f …` invocation. -/
  decompressOutcome : CmdOutcome
  /-- Outcome of the `binwalk -e …` invocation. -/
  binwalkOutcome : CmdOutcome
  /-- The `_….extracted` directory exists after binwalk ran. -/
  binwalkDirExists : Bool
  /-- `extract_dir.glob("*.squashfs")` is non-empty. -/
  squashfsFileFound : Bool
  /-- The `unsquashfs -version` probe did not raise. -/
  versionProbeOk : Bool
  /-- Captured stdout+stderr of the version probe. -/
  versionProbeOutput : String
  /-- Outcome of the unsquashfs extraction process itself. -/
  unsquashfsOutcome : CmdOutcome
  /-- `squashfs-extracted` exists after unsquashfs ran. -/
  squashfsOutDirExists : Bool

/-- `FirmwareExtractor.run`: `True` iff every stage up to and including
`extract_squashfs` succeeds (`find_lz4_offset` cannot fail, and
`list_dji_components` / `generate_report` always proceed). -/
def pipelineRun (e : RunEnv) : Bool :=
  e.depsOk && e.lz4ReadOk &&
    (runCmd "lz4 -d -f" e.decompressOutcome).1 &&
    ((runCmd "binwalk -e" e.binwalkOutcome).1 && e.binwalkDirExists) &&
    extract_squashfs e.squashfsFileFound
      (get_unsquashfs_version e.versionProbeOk e.versionProbeOutput)
      e.unsquashfsOutcome e.squashfsOutDirExists

/-- `setup_workspace` is reached (and the workspace directory ensured)
exactly when the dependency check passed; it is the second step of `run`. -/
def workspaceCreated (e : RunEnv) : Bool := e.depsOk

/-- `main`: exit status together with whether `setup_workspace` ever ran.
`argsPresent` is `len(sys.argv) >= 2`; `inputExists` is
`firmware_path.exists()` checked in `FirmwareExtractor.__init__`. -/
def mainExit (argsPresent inputExists : Bool) (e : RunEnv) : Nat × Bool :=
  if !argsPresent then (1, false)
  else if !inputExists then (1, false)
  else (if pipelineRun e then 0 else 1, workspaceCreated e)

/-! ### Filesystem effects of a complete run

Paths are component lists; `parent` is the input file's directory,
`fwName` its file name, `stem` its `Path.stem`, `sqName` the name of the
`*.squashfs` file binwalk produced.  Each entry cites the source line
performing it.  External tools are directed at their target paths by the
command lines the source builds (`lz4 -d -f in out`, `cd workdir &&
binwalk -e name`, `cd extractdir && unsquashfs -d squashfs-extracted
name`). -/

inductive FsEffect where
  /-- A file opened for reading (`open(p, 'rb')`, or an external tool
  reading its input). -/
  | openRead (p : List String)
  /-- A file opened for writing by the script (`open(p, 'wb')` /
  `open(p, 'w')`). -/
  | openWrite (p : List String)
  /-- A directory ensured by `Path.mkdir`. -/
  | mkdirDir (p : List String)
  /-- A path written by an invoked external tool. -/
  | toolWrite (p : List String)
deriving DecidableEq

/-- `self.firmware_path`. -/
def inputPath (parent : List String) (fwName : String) : List String :=
  parent ++ [fwName]

/-- `self.work_dir = self.firmware_path.parent / self.firmware_name`. -/
def workDir (parent : List String) (stem : String) : List String :=
  parent ++ [stem]

/-- Every filesystem access of a complete `FirmwareExtractor.run`, in
program order. -/
def runEffects (parent : List String) (fwName stem sqName : String) :
    List FsEffect :=
  [ -- setup_workspace: self.work_dir.mkdir(parents=True, exist_ok=True)
    .mkdirDir (workDir parent stem),
    -- find_lz4_offset: binwalk -B <firmware_path> reads the input
    .openRead (inputPath parent fwName),
    -- extract_lz4_payload: open(self.firmware_path, 'rb')
    .openRead (inputPath parent fwName),
    -- extract_lz4_payload: open(lz4_file, 'wb')
    .openWrite (workDir parent stem ++ ["lz4_payload.bin"]),
    -- decompress_lz4: lz4 -d -f reads the payload …
    .openRead (workDir parent stem ++ ["lz4_payload.bin"]),
    -- … and writes work_dir / "firmware_decompressed.bin"
    .toolWrite (workDir parent stem ++ ["firmware_decompressed.bin"]),
    -- extract_binwalk: binwalk -e reads the decompressed file …
    .openRead (workDir parent stem ++ ["firmware_decompressed.bin"]),
    -- … and writes _firmware_decompressed.bin.extracted/ under work_dir
    .toolWrite (workDir parent stem ++
      ["_firmware_decompressed.bin.extracted"]),
    -- … including the *.squashfs container it carves out
    .toolWrite (workDir parent stem ++
      ["_firmware_decompressed.bin.extracted", sqName]),
    -- extract_squashfs: unsquashfs reads the container …
    .openRead (workDir parent stem ++
      ["_firmware_decompressed.bin.extracted", sqName]),
    -- … and writes -d squashfs-extracted inside extract_dir
    .toolWrite (workDir parent stem ++
      ["_firmware_decompressed.bin.extracted", "squashfs-extracted"]),
    -- generate_report: open(report_file, 'w')
    .openWrite (workDir parent stem ++ ["EXTRACTION_REPORT.md"]) ]

/-- The path an effect touches. -/
def effPath : FsEffect → List String
  | .openRead p => p
  | .openWrite p => p
  | .mkdirDir p => p
  | .toolWrite p => p

/-- Effects that write file contents (script-side or tool-side opens for
writing; directory creation is not an open-for-write of a file). -/
def isWriteOpen : FsEffect → Bool
  | .openWrite _ => true
  | .toolWrite _ => true
  | _ => false

/-! ## Helper lemmas -/

theorem verGe_iff (v w : Nat × Nat) :
    verGe v w = true ↔ w.1 < v.1 ∨ (v.1 = w.1 ∧ w.2 ≤ v.2) := by
  simp [verGe, Bool.or_eq_true, Bool.and_eq_true, decide_eq_true_eq]

/-- Lexicographic `≥` is transitive. -/
theorem verGe_trans {u v w : Nat × Nat} (h1 : verGe u v = true)
    (h2 : verGe v w = true) : verGe u w = true := by
  rw [verGe_iff] at h1 h2 ⊢
  omega

/-- A version at or above the 4.5 floor is at or above the 4.4 floor. -/
theorem verGe_45_to_44 {v : Nat × Nat} (h : verGe v (4, 5) = true) :
    verGe v (4, 4) = true := by
  rw [verGe_iff] at h ⊢
  omega

theorem scanVersionTokens_eq_none {ts : List String}
    (h : ∀ t ∈ ts, tokenVersion t = none) : scanVersionTokens ts = none := by
  induction ts with
  | nil => rfl
  | cons t rest ih =>
    have ht := h t (List.mem_cons_self t rest)
    simp only [scanVersionTokens, ht]
    exact ih fun t' ht' => h t' (List.mem_cons_of_mem t ht')

theorem scanVersionLines_eq_none {ls : List String}
    (h : ∀ l ∈ ls, ∀ t ∈ pysplit l, tokenVersion t = none) :
    scanVersionLines ls = none := by
  induction ls with
  | nil => rfl
  | cons l rest ih =>
    have hrest := ih fun l' hl' => h l' (List.mem_cons_of_mem l hl')
    have hl := scanVersionTokens_eq_none (h l (List.mem_cons_self l rest))
    simp only [scanVersionLines, hl]
    split <;> simp [hrest]

theorem scanLz4Lines_eq_none {ls : List String}
    (h : ∀ l ∈ ls, lz4LineOffset l = none) : scanLz4Lines ls = none := by
  induction ls with
  | nil => rfl
  | cons l rest ih =>
    have hl := h l (List.mem_cons_self l rest)
    simp only [scanLz4Lines, hl]
    exact ih fun l' hl' => h l' (List.mem_cons_of_mem l hl')

/-- First-match-wins for the LZ4 line scan. -/
theorem scanLz4Lines_append {pre : List String} {l : String}
    {post : List String} {n : Nat}
    (hpre : ∀ l2 ∈ pre, lz4LineOffset l2 = none)
    (hl : lz4LineOffset l = some n) :
    scanLz4Lines (pre ++ l :: post) = some n := by
  induction pre with
  | nil => simp [scanLz4Lines, hl]
  | cons p rest ih =>
    have hp := hpre p (List.mem_cons_self p rest)
    simp only [List.cons_append, scanLz4Lines, hp]
    exact ih fun l2 h2 => hpre l2 (List.mem_cons_of_mem p h2)

/-! ## Claim theorems -/

/-- C2: the version-to-flag resolution has its floors exactly at (4,4)
and (4,5): `-no-exit-code` is selected exactly for versions `≥ (4,5)`,
`-ignore-errors` exactly for `(4,4) ≤ v < (4,5)`, and the no-flag
catch-all exactly for `v < (4,4)`; two versions on the same side of both
floors resolve to the same flag, and the resolution is monotone in the
version, so the flag set changes only when a floor is crossed. -/
theorem C2_flag_floors :
    (∀ v : Nat × Nat,
      (selectFlag v = UnsqFlag.noExitCode ↔ verGe v (4, 5) = true) ∧
      (selectFlag v = UnsqFlag.ignoreErrors ↔
        (verGe v (4, 4) = true ∧ verGe v (4, 5) = false)) ∧
      (selectFlag v = UnsqFlag.legacyNoFlag ↔ verGe v (4, 4) = false)) ∧
    (∀ v1 v2 : Nat × Nat,
      verGe v1 (4, 4) = verGe v2 (4, 4) →
      verGe v1 (4, 5) = verGe v2 (4, 5) →
      selectFlag v1 = selectFlag v2) ∧
    (∀ v1 v2 : Nat × Nat, verGe v2 v1 = true →
      flagRank (selectFlag v1) ≤ flagRank (selectFlag v2)) := by
  have hchar : ∀ v : Nat × Nat,
      (selectFlag v = UnsqFlag.noExitCode ↔ verGe v (4, 5) = true) ∧
      (selectFlag v = UnsqFlag.ignoreErrors ↔
        (verGe v (4, 4) = true ∧ verGe v (4, 5) = false)) ∧
      (selectFlag v = UnsqFlag.legacyNoFlag ↔ verGe v (4, 4) = false) := by
    intro v
    by_cases h5 : verGe v (4, 5) = true
    · have h4 := verGe_45_to_44 h5
      simp [selectFlag, h5, h4]
    · by_cases h4 : verGe v (4, 4) = true
      · rw [Bool.not_eq_true] at h5
        simp [selectFlag, h5, h4]
      · rw [Bool.not_eq_true] at h5 h4
        simp [selectFlag, h5, h4]
  refine ⟨hchar, ?_, ?_⟩
  · intro v1 v2 h44 h45
    unfold selectFlag
    rw [h44, h45]
  · intro v1 v2 h21
    by_cases h5 : verGe v1 (4, 5) = true
    · have := verGe_trans h21 h5
      have e1 := (hchar v1).1.mpr h5
      have e2 := (hchar v2).1.mpr this
      rw [e1, e2]
    · by_cases h4 : verGe v1 (4, 4) = true
      · have h24 := verGe_trans h21 h4
        have e1 := (hchar v1).2.1.mpr ⟨h4, Bool.not_eq_true _ ▸ h5⟩
        rw [e1]
        by_cases h25 : verGe v2 (4, 5) = true
        · rw [(hchar v2).1.mpr h25]; simp [flagRank]
        · rw [(hchar v2).2.1.mpr ⟨h24, Bool.not_eq_true _ ▸ h25⟩]
      · have e1 := (hchar v1).2.2.mpr (Bool.not_eq_true _ ▸ h4)
        rw [e1]
        cases selectFlag v2 <;> simp [flagRank]

/-- C2 witness: concrete floor behaviour — (4,5) and (4,9) resolve alike,
the rank is monotone from (4,3) to (5,0), and (4,4) resolves to
`-ignore-errors`. -/
theorem C2_flag_floors_witness :
    selectFlag (4, 5) = selectFlag (4, 9) ∧
    flagRank (selectFlag (4, 3)) ≤ flagRank (selectFlag (5, 0)) ∧
    selectFlag (4, 4) = UnsqFlag.ignoreErrors :=
  ⟨C2_flag_floors.2.1 (4, 5) (4, 9) (by decide) (by decide),
   C2_flag_floors.2.2 (4, 3) (5, 0) (by decide),
   (C2_flag_floors.1 (4, 4)).2.1.mpr (by decide)⟩

/-- C3: `get_unsquashfs_version` resolves `"unsquashfs version 4.5.1"` to
(4,5) and `"unsquashfs version 4.3"` to (4,3); a failed invocation, and
any output whose tokens all fail the digits-and-dots test or the
two-component parse, yield the conservative default (4,4). -/
theorem C3_get_unsquashfs_version :
    get_unsquashfs_version true "unsquashfs version 4.5.1" = (4, 5) ∧
    get_unsquashfs_version true "unsquashfs version 4.3" = (4, 3) ∧
    (∀ output, get_unsquashfs_version false output = (4, 4)) ∧
    (∀ output,
      (∀ l ∈ splitChar '\n' output, ∀ t ∈ pysplit l, tokenVersion t = none) →
      get_unsquashfs_version true output = (4, 4)) := by
  refine ⟨by decide, by decide, fun _ => rfl, fun output h => ?_⟩
  simp [get_unsquashfs_version, scanVersionLines_eq_none h]

/-- C3 witness: a probe output with no parsable numeric token resolves to
the default (4,4). -/
theorem C3_get_unsquashfs_version_witness :
    get_unsquashfs_version true "unsquashfs version x.y (beta)" = (4, 4) :=
  C3_get_unsquashfs_version.2.2.2 "unsquashfs version x.y (beta)" (by decide)

/-- C4: for every source of length `L` and offset `o ≤ L`, the payload
slicer reports success with an artifact of exactly `L - o` bytes, and at
or beyond end-of-file the artifact is empty (still a success, never an
error). -/
theorem C4_extract_lz4_payload (src : List Nat) (o : Nat) :
    (o ≤ src.length →
      extract_lz4_payload (some src) o = some (src.drop o) ∧
      (src.drop o).length = src.length - o) ∧
    (src.length ≤ o → extract_lz4_payload (some src) o = some []) := by
  constructor
  · intro _
    exact ⟨rfl, List.length_drop o src⟩
  · intro h
    simp [extract_lz4_payload, List.drop_eq_nil_of_le h]

/-- C4 witness: slicing `[7,8,9,10]` at 1 gives 3 bytes; slicing at 4 and
at 9 gives the empty artifact as a success. -/
theorem C4_extract_lz4_payload_witness :
    extract_lz4_payload (some [7, 8, 9, 10]) 1 = some [8, 9, 10] ∧
    extract_lz4_payload (some [7, 8, 9, 10]) 4 = some [] ∧
    extract_lz4_payload (some [7, 8, 9, 10]) 9 = some [] :=
  ⟨((C4_extract_lz4_payload [7, 8, 9, 10] 1).1 (by decide)).1,
   (C4_extract_lz4_payload [7, 8, 9, 10] 4).2 (by decide),
   (C4_extract_lz4_payload [7, 8, 9, 10] 9).2 (by decide)⟩

/-- C5: when no binwalk output line matches the LZ4 pattern, and when the
binwalk invocation raises (failure or timeout), `find_lz4_offset` returns
the hard-coded default offset 378 = 0x17A instead of an error. -/
theorem C5_find_lz4_offset_fallback :
    (∀ out, find_lz4_offset false out = 378) ∧
    (∀ out, (∀ l ∈ splitChar '\n' out, lz4LineMatches l = false) →
      find_lz4_offset true out = 378) := by
  refine ⟨fun _ => rfl, fun out h => ?_⟩
  have hnone : ∀ l ∈ splitChar '\n' out, lz4LineOffset l = none := by
    intro l hl
    simp [lz4LineOffset, h l hl]
  simp [find_lz4_offset, scanLz4Lines_eq_none hnone]

/-- C5 witness: a binwalk table with no LZ4 line falls back to 378. -/
theorem C5_find_lz4_offset_fallback_witness :
    find_lz4_offset true "DECIMAL  HEXADECIMAL  DESCRIPTION\x0agzip data" = 378 :=
  C5_find_lz4_offset_fallback.2
    "DECIMAL  HEXADECIMAL  DESCRIPTION\x0agzip data" (by decide)

/-- C9: a version token with a single numeric component is skipped — the
two-component unpack fails — so `"unsquashfs version 4"` yields neither
(4,0) nor a partial pair but the default (4,4); a later token on the same
line can still be parsed, as `"unsquashfs version 4 4.5"` shows. -/
theorem C9_single_component_token :
    tokenVersion "4" = none ∧
    get_unsquashfs_version true "unsquashfs version 4" = (4, 4) ∧
    get_unsquashfs_version true "unsquashfs version 4 4.5" = (4, 5) := by
  refine ⟨by decide, by decide, by decide⟩

/-- C1 counterexample: version (4,5) selects the error-tolerant
`-no-exit-code` path, the tool exits 1 while the `squashfs-extracted`
directory exists, yet `extract_squashfs` reports failure — success is not
independent of the exit status on the flag paths. -/
theorem C1_counterexample :
    selectFlag (4, 5) = UnsqFlag.noExitCode ∧
    exitedNonzero (CmdOutcome.completed 1 "" "") = true ∧
    extract_squashfs true (4, 5) (CmdOutcome.completed 1 "" "") true
      = false := by
  refine ⟨by decide, by decide, by decide⟩

/-- C1 (amended): exit-status-independent success holds only on the
legacy no-flag path (`v < (4,4)`), whose command ends in `|| true`: there
the stage succeeds iff a container was found and the output directory
exists.  On the error-tolerant flag paths (`v ≥ (4,4)`) the stage
succeeds iff additionally the tool itself exited 0: a non-zero exit is a
reported failure even when `squashfs-extracted` was created. -/
theorem C1_amended_extract_squashfs (v : Nat × Nat) (toolExit : Nat)
    (out err : String) (hasFile outDir : Bool) :
    (verGe v (4, 4) = false →
      extract_squashfs hasFile v (.completed toolExit out err) outDir
        = (hasFile && outDir)) ∧
    (verGe v (4, 4) = true →
      extract_squashfs hasFile v (.completed toolExit out err) outDir
        = (hasFile && (toolExit == 0) && outDir)) := by
  constructor
  · intro h4
    have h5 : verGe v (4, 5) = false := by
      cases h : verGe v (4, 5)
      · rfl
      · rw [verGe_45_to_44 h] at h4
        exact absurd h4 (by decide)
    simp [extract_squashfs, selectFlag, h4, h5, squashfsShellOutcome, runCmd]
  · intro h4
    have hflag : selectFlag v ≠ UnsqFlag.legacyNoFlag := by
      unfold selectFlag
      cases h5 : verGe v (4, 5) <;> simp [h5, h4]
    by_cases hz : toolExit = 0
    · subst hz
      simp [extract_squashfs, squashfsShellOutcome, runCmd, if_neg hflag]
    · simp [extract_squashfs, squashfsShellOutcome, runCmd, if_neg hflag, hz]

/-- C1 (amended) witness: on the legacy path (4,3) a failing tool with an
existing output directory is still a success; on the flag path (4,5) the
same situation is a failure. -/
theorem C1_amended_extract_squashfs_witness :
    extract_squashfs true (4, 3) (.completed 1 "" "") true = true ∧
    extract_squashfs true (4, 5) (.completed 1 "" "") true = false :=
  ⟨(C1_amended_extract_squashfs (4, 3) 1 "" "" true true).1 (by decide),
   (C1_amended_extract_squashfs (4, 5) 1 "" "" true true).2 (by decide)⟩

/-- C6 counterexample: the line `"100 0x64 Lz4 compressed data"` contains
`"lz4"` under a case-insensitive match and starts with the decimal token
100, yet `find_lz4_offset` falls back to 378: the source's test
`'LZ4' in line or 'lz4' in line` is case-sensitive and misses `"Lz4"`. -/
theorem C6_counterexample :
    pyContains (pyLower "100 0x64 Lz4 compressed data") "lz4" = true ∧
    pyInt? "100" = some 100 ∧
    find_lz4_offset true "100 0x64 Lz4 compressed data" = 378 := by
  refine ⟨by decide, by decide, by decide⟩

/-- C6 (amended): for every binwalk output containing at least one line
with the exact substring `"LZ4"` or `"lz4"` (case-sensitive, anywhere in
the line) whose first whitespace token is a decimal number,
`find_lz4_offset` returns the number parsed from the first such line;
earlier lines — non-matching ones, and matching ones without a leading
decimal token — are skipped, and all later lines are ignored. -/
theorem C6_first_match_wins (out : String) (pre : List String) (l : String)
    (post : List String) (n : Nat)
    (hsplit : splitChar '\n' out = pre ++ l :: post)
    (hpre : ∀ l2 ∈ pre, lz4LineOffset l2 = none)
    (hl : lz4LineOffset l = some n) :
    find_lz4_offset true out = n := by
  simp [find_lz4_offset, hsplit, scanLz4Lines_append hpre hl]

/-- C6 (amended) witness: the offset comes from the second line (the
first with a decimal-led LZ4 match); the third, also matching, is
ignored. -/
theorem C6_first_match_wins_witness :
    find_lz4_offset true
      "abc LZ4 def\x0a200 0xC8 LZ4 compressed data\x0a300 0x12C LZ4 more"
      = 200 :=
  C6_first_match_wins
    "abc LZ4 def\x0a200 0xC8 LZ4 compressed data\x0a300 0x12C LZ4 more"
    ["abc LZ4 def"] "200 0xC8 LZ4 compressed data" ["300 0x12C LZ4 more"]
    200 (by decide) (by decide) (by decide)

/-- C7: the process exits 0 exactly when the argument is present, the
input exists, and every pipeline stage succeeds; the exit status is
always 0 or 1; and a non-existent input exits 1 with no workspace
creation (the existence check in `__init__` precedes `run`, hence
precedes `setup_workspace`). -/
theorem C7_exit_codes (a i : Bool) (e : RunEnv) :
    ((mainExit a i e).1 = 0 ↔
      (a = true ∧ i = true ∧ pipelineRun e = true)) ∧
    ((mainExit a i e).1 = 0 ∨ (mainExit a i e).1 = 1) ∧
    (i = false → mainExit a i e = (1, false)) := by
  cases a <;> cases i <;> cases hp : pipelineRun e <;>
    simp [mainExit, hp]

/-- C7 witness: with the argument present but the input missing, the exit
status is 1 and the workspace flag is false. -/
theorem C7_exit_codes_witness :
    mainExit true false
      ⟨true, true, .completed 0 "" "", .completed 0 "" "", true, true,
       true, "unsquashfs version 4.5.1", .completed 0 "" "", true⟩
      = (1, false) :=
  (C7_exit_codes true false
    ⟨true, true, .completed 0 "" "", .completed 0 "" "", true, true,
     true, "unsquashfs version 4.5.1", .completed 0 "" "", true⟩).2.2 rfl

/-- C8 counterexample: an invocation that raises (the generic `except
Exception` path, e.g. an `OSError`) is reported as a failure although the
process neither exited non-zero nor timed out — failure is not equivalent
to non-zero-exit-or-timeout. -/
theorem C8_counterexample :
    (runCmd "cmd" CmdOutcome.raised).1 = false ∧
    exitedNonzero CmdOutcome.raised = false ∧
    isTimeout CmdOutcome.raised = false := by
  refine ⟨by decide, by decide, by decide⟩

/-- C8 (amended): `runCmd` reports failure iff the process exited
non-zero, the 300 s timeout elapsed, or the invocation raised some other
exception; otherwise it reports success and, when the captured stdout is
non-empty, its stripped text is appended to the audit log. -/
theorem C8_runCmd_amended (cmd : String) :
    (∀ o, (runCmd cmd o).1 = false ↔
      (exitedNonzero o = true ∨ isTimeout o = true ∨ o = .raised)) ∧
    (∀ ec out err, ec = 0 → out ≠ "" →
      (runCmd cmd (.completed ec out err)).1 = true ∧
      pyStrip out ∈ (runCmd cmd (.completed ec out err)).2) := by
  constructor
  · intro o
    cases o with
    | completed ec sout serr =>
      by_cases hec : ec = 0 <;>
        simp [runCmd, exitedNonzero, isTimeout, hec]
    | timedOut => simp [runCmd, exitedNonzero, isTimeout]
    | raised => simp [runCmd, exitedNonzero, isTimeout]
  · intro ec out err hec hout
    subst hec
    simp [runCmd, hout]

/-- C8 (amended) witness: exit code 2 is a failure; exit code 0 succeeds
and records the stripped stdout. -/
theorem C8_runCmd_amended_witness :
    (runCmd "lz4 -d -f" (.completed 2 "" "boom")).1 = false ∧
    pyStrip " done \x0a" ∈
      (runCmd "lz4 -d -f" (.completed 0 " done \x0a" "")).2 :=
  ⟨((C8_runCmd_amended "lz4 -d -f").1 (.completed 2 "" "boom")).mpr
      (Or.inl (by decide)),
   ((C8_runCmd_amended "lz4 -d -f").2 0 " done \x0a" "" rfl (by decide)).2⟩

/-- A path strictly below the workspace directory is not the input file's
path: it has at least one component more. -/
theorem workDir_ext_ne_input (parent : List String) (fwName stem : String)
    (a : String) (rest : List String) :
    workDir parent stem ++ (a :: rest) ≠ inputPath parent fwName := by
  intro hcon
  have hlen := congrArg List.length hcon
  simp [workDir, inputPath, List.length_append] at hlen

/-- A path strictly below the workspace directory is not the workspace
directory itself. -/
theorem workDir_ext_ne_workDir (parent : List String) (stem : String)
    (a : String) (rest : List String) :
    workDir parent stem ++ (a :: rest) ≠ workDir parent stem := by
  intro hcon
  have hlen := congrArg List.length hcon
  simp [workDir, List.length_append] at hlen

/-- C10: no effect of a complete run opens the input firmware file for
writing — every script-side or tool-side write lands strictly below the
workspace directory and in particular differs from the input path — and
(as long as the input's name is not its own stem, i.e. the file has an
extension) the only effects touching the input path at all are read-only
opens. -/
theorem C10_input_never_written (parent : List String)
    (fwName stem sqName : String) :
    (∀ eff ∈ runEffects parent fwName stem sqName,
      isWriteOpen eff = true →
        effPath eff ≠ inputPath parent fwName ∧
        workDir parent stem <+: effPath eff ∧
        effPath eff ≠ workDir parent stem) ∧
    (∀ eff ∈ runEffects parent fwName stem sqName,
      effPath eff = inputPath parent fwName → fwName ≠ stem →
        eff = FsEffect.openRead (inputPath parent fwName)) := by
  constructor
  · intro eff heff hw
    simp only [runEffects, List.mem_cons, List.not_mem_nil, or_false]
      at heff
    rcases heff with h | h | h | h | h | h | h | h | h | h | h | h <;>
        subst h <;> simp only [isWriteOpen] at hw <;>
      first
        | exact absurd hw (by decide)
        | exact ⟨workDir_ext_ne_input _ _ _ _ _, List.prefix_append _ _,
            workDir_ext_ne_workDir _ _ _ _⟩
  · intro eff heff hpath hne
    simp only [runEffects, List.mem_cons, List.not_mem_nil, or_false]
      at heff
    rcases heff with h | h | h | h | h | h | h | h | h | h | h | h <;>
        subst h <;>
      first
        | rfl
        | exact absurd hpath (workDir_ext_ne_input _ _ _ _ _)
        | (simp only [effPath, workDir, inputPath,
             List.append_cancel_left_eq, List.cons.injEq, and_true] at hpath
           exact (hne hpath.symm).elim)

/-- C10 witness: the payload artifact write of a concrete run sits below
the workspace and is not the input file, and the effect that does touch
the input path is the read-only open. -/
theorem C10_input_never_written_witness :
    ((["d", "fw"] : List String) <+: ["d", "fw", "lz4_payload.bin"] ∧
      (["d", "fw", "lz4_payload.bin"] : List String) ≠ ["d", "fw.bin"]) ∧
    FsEffect.openRead (["d"] ++ ["fw.bin"])
      = FsEffect.openRead (inputPath ["d"] "fw.bin") :=
  ⟨by
    have h := (C10_input_never_written ["d"] "fw.bin" "fw" "a.squashfs").1
      (FsEffect.openWrite (workDir ["d"] "fw" ++ ["lz4_payload.bin"]))
      (by simp [runEffects]) rfl
    exact ⟨h.2.1, h.1⟩,
   by
    have h := (C10_input_never_written ["d"] "fw.bin" "fw" "a.squashfs").2
      (FsEffect.openRead (inputPath ["d"] "fw.bin"))
      (by simp [runEffects, inputPath]) rfl (by decide)
    exact h⟩

end FirmwareExtract
